import Mathlib

/-!
Verification development for the expense-tracker template
(Next.js + Supabase mini-app template, "Expense Tracker POC").

The data model and operations below are shallow embeddings of:
  * the SQL migrations (profiles table, row-level-security policies,
    the signup trigger `handle_new_user`, the `expenses` table),
  * the Expenses page (`src/app/expenses/page.tsx`): the Zod form schema,
    the submit pipeline and the `fetchExpenses` query,
  * the session-refresh middleware and route-protection gate.  The
    middleware source file (`src/lib/supabase/middleware.ts`) is not part
    of the source tree given here, so that component is modelled from the
    specification (each such definition is marked `Modelled from the spec:`).
-/

namespace ExpenseTracker

/-! ## Data model

Rows as described by `src/types/database.ts`, `src/lib/types.ts` and the
SQL migrations.  Timestamps and dates are ISO strings, as in the
TypeScript types. -/

/-- A row of `public.profiles` (migration `001_shared_schema.sql`,
`Profile` in `src/types/database.ts`). -/
structure Profile where
  id : String
  created_at : String
  updated_at : String
  email : String
  full_name : Option String
  subscription_tier : String
  onboarding_completed : Bool
  preferences : String
  deriving Repr, DecidableEq

/-- A row of `public.expenses` (migration `005` for the expense tracker,
`Expense` in `src/lib/types.ts`). -/
structure Expense where
  id : String
  user_id : String
  amount : ℚ
  category : String
  note : Option String
  date : String
  created_at : String
  updated_at : String
  deriving Repr, DecidableEq

/-- A row of `public.demo_notes` (migration `005_demo_notes.sql`,
`DemoNoteRow` in `src/types/database.ts`). -/
structure DemoNote where
  id : String
  user_id : String
  created_at : String
  updated_at : String
  title : String
  content : Option String
  deriving Repr, DecidableEq

/-! ## Row-level security policies

Each policy is the boolean USING / WITH CHECK clause from the SQL,
evaluated for the authenticated identity `uid` (the value of
`auth.uid()`) against one candidate row. -/

/-- Policy `profiles_select_own` (002_rls_policies.sql): `USING (auth.uid() = id)`. -/
def profiles_select_own (uid : String) (p : Profile) : Bool := uid == p.id

/-- Policy `profiles_insert_own` (002_rls_policies.sql): `WITH CHECK (auth.uid() = id)`. -/
def profiles_insert_own (uid : String) (p : Profile) : Bool := uid == p.id

/-- Policy `profiles_update_own` (002_rls_policies.sql). -/
def profiles_update_own (uid : String) (p : Profile) : Bool := uid == p.id

/-- Policy `expenses_select_own` (expenses migration): `USING (auth.uid() = user_id)`. -/
def expenses_select_own (uid : String) (e : Expense) : Bool := uid == e.user_id

/-- Policy `expenses_insert_own`: `WITH CHECK (auth.uid() = user_id)`. -/
def expenses_insert_own (uid : String) (e : Expense) : Bool := uid == e.user_id

/-- Policy `expenses_update_own`: `USING` and `WITH CHECK (auth.uid() = user_id)`. -/
def expenses_update_own (uid : String) (e : Expense) : Bool := uid == e.user_id

/-- Policy `expenses_delete_own`: `USING (auth.uid() = user_id)`. -/
def expenses_delete_own (uid : String) (e : Expense) : Bool := uid == e.user_id

/-- Policy `demo_notes_select_own` (005_demo_notes.sql): `USING (auth.uid() = user_id)`. -/
def demo_notes_select_own (uid : String) (n : DemoNote) : Bool := uid == n.user_id

/-- Result set of a SELECT over `expenses` issued by identity `uid`:
the store filters rows through the SELECT policy. -/
def selectExpenses (uid : String) (db : List Expense) : List Expense :=
  db.filter (expenses_select_own uid)

/-- Result set of a SELECT over `demo_notes` issued by identity `uid`. -/
def selectDemoNotes (uid : String) (db : List DemoNote) : List DemoNote :=
  db.filter (demo_notes_select_own uid)

/-- Result set of a SELECT over `profiles` issued by identity `uid`. -/
def selectProfiles (uid : String) (db : List Profile) : List Profile :=
  db.filter (profiles_select_own uid)

/-! ## Signup trigger

From `004_triggers.sql` (embedded in the README): the trigger
`on_auth_user_created` fires AFTER INSERT ON `auth.users`, FOR EACH ROW,
executing `handle_new_user`, which inserts one row into
`public.profiles` with `(id, email, full_name)` taken from the new
auth user; the remaining columns take the defaults of
`001_shared_schema.sql` (`subscription_tier` = free,
`onboarding_completed` = FALSE, `preferences` = empty object,
timestamps = NOW()). -/

/-- A row of `auth.users` as seen by the trigger: `NEW.id`, `NEW.email`
and `NEW.raw_user_meta_data ->> full_name`. -/
structure AuthUser where
  id : String
  email : String
  raw_full_name : Option String
  deriving Repr, DecidableEq

/-- Function `public.handle_new_user` from `004_triggers.sql`: inserts
one profile row for the freshly inserted auth user; `now` stands for the
NOW() default of the timestamp columns. -/
def handle_new_user (now : String) (u : AuthUser) (profiles : List Profile) : List Profile :=
  { id := u.id
    created_at := now
    updated_at := now
    email := u.email
    full_name := u.raw_full_name
    subscription_tier := "free"
    onboarding_completed := false
    preferences := "{}" } :: profiles

/-- Backing-store state relevant to signup: the auth users and the
profile rows. -/
structure AuthDB where
  users : List AuthUser
  profiles : List Profile
  deriving Repr, DecidableEq

/-- Effect of a signup on the store: the INSERT into `auth.users`
together with the AFTER INSERT trigger `on_auth_user_created`, which
runs `handle_new_user` server-side (no client action involved). -/
def signUp (now : String) (u : AuthUser) (db : AuthDB) : AuthDB :=
  { users := u :: db.users
    profiles := handle_new_user now u db.profiles }

/-! ## The expense list query

From `fetchExpenses` in `src/app/expenses/page.tsx`:

    supabase.from("expenses").select("*")
      .eq("user_id", user.id)
      .order("date", { ascending: false })

The query builder call chain is reified as a `SupaQuery` record, and its
server-side evaluation over a table state is `runExpensesQuery`:
PostgREST returns the rows passing the `eq` filter, sorted on the
`order` column in the requested direction.  Dates are ISO `YYYY-MM-DD`
strings, so the DATE ordering is the lexicographic ordering of the
strings, embedded here as `strLe` over character codes (the built-in
`String` order does not reduce in the kernel). -/

/-- Lexicographic less-or-equal on lists of character codes. -/
def lexLe : List Nat → List Nat → Bool
  | [], _ => true
  | _ :: _, [] => false
  | a :: as, b :: bs => decide (a < b) || (a == b && lexLe as bs)

/-- Lexicographic less-or-equal on strings, via character codes. -/
def strLe (a b : String) : Bool := lexLe (a.data.map Char.toNat) (b.data.map Char.toNat)

/-- Reified Supabase query: table, one `eq` filter, one `order` clause. -/
structure SupaQuery where
  table : String
  eqColumn : String
  eqValue : String
  orderColumn : String
  ascending : Bool
  deriving Repr, DecidableEq

/-- The query built by `fetchExpenses` for user id `uid`
(`src/app/expenses/page.tsx`, the FETCH section). -/
def fetchExpensesQuery (uid : String) : SupaQuery :=
  { table := "expenses"
    eqColumn := "user_id"
    eqValue := uid
    orderColumn := "date"
    ascending := false }

/-- String-valued column access on an expense row, by column name. -/
def Expense.col (e : Expense) : String → String
  | "id" => e.id
  | "user_id" => e.user_id
  | "category" => e.category
  | "date" => e.date
  | "created_at" => e.created_at
  | "updated_at" => e.updated_at
  | _ => ""

/-- Server-side evaluation of a `SupaQuery` against the `expenses`
table: filter on the `eq` column, then sort on the `order` column in the
requested direction. -/
def runExpensesQuery (db : List Expense) (q : SupaQuery) : List Expense :=
  (db.filter (fun e => e.col q.eqColumn == q.eqValue)).mergeSort
    (fun a b =>
      if q.ascending then strLe (a.col q.orderColumn) (b.col q.orderColumn)
      else strLe (b.col q.orderColumn) (a.col q.orderColumn))

/-- The rows received and rendered by the Expenses page: the result of
running `fetchExpensesQuery` against the stored table. -/
def fetchExpenses (uid : String) (db : List Expense) : List Expense :=
  runExpensesQuery db (fetchExpensesQuery uid)

/-! ## Expense form validation

From `expenseSchema` and the submit pipeline in
`src/app/expenses/page.tsx`.  The schema is

    amount: string, min 1 "Amount is required",
            refine (not isNaN(Number(v)) and Number(v) > 0)
              "Amount must be a positive number"
    category: enum [Food, Transport, Entertainment, Other]
    note: string, max 500 "Note must be 500 characters or less", optional
    date: string, min 1 "Date is required"

`useForm` is configured with `zodResolver(expenseSchema)`, so
`handleSubmit(onSubmit)` invokes `onSubmit` (which issues the insert)
only when the schema accepts the values; otherwise the per-field errors
are exposed through `formState.errors` and rendered inline next to the
field.  JavaScript `Number(v)` on the decimal numeric literals the form
produces is embedded as `parseNumber`; a string outside that grammar is
NaN, i.e. `none`. -/

/-- Category enum of `expenseSchema` / `EXPENSE_CATEGORIES`. -/
inductive Category
  | Food | Transport | Entertainment | Other
  deriving Repr, DecidableEq

/-- Decimal value `sign * mant * 10 ^ exp`: the result of parsing a
floating-point numeric string (the exponent field absorbs both the
fractional digits and an explicit `e`/`E` exponent part). -/
structure JsNum where
  neg : Bool
  mant : Nat
  exp : Int
  deriving Repr, DecidableEq

/-- Rational value of a parsed number. -/
def JsNum.toRat (x : JsNum) : ℚ :=
  (if x.neg then -1 else 1) * (x.mant : ℚ) * ((10 : ℚ) ^ x.exp)

/-- Strict positivity of a parsed number, decided on the representation. -/
def JsNum.isPos (x : JsNum) : Bool := !x.neg && x.mant != 0

/-- Digit run to a natural number; fails on a non-digit. -/
def parseDigitsAux : List Char → Nat → Option Nat
  | [], acc => some acc
  | c :: cs, acc =>
    if c.isDigit then parseDigitsAux cs (acc * 10 + (c.toNat - 48)) else none

/-- Nonempty digit run. -/
def parseDigits (cs : List Char) : Option Nat :=
  if cs.isEmpty then none else parseDigitsAux cs 0

/-- Mantissa: digits, optionally split by one decimal point, at least
one digit overall.  Returns the digits as a natural number together
with the count of fractional digits, so the value is
`mant / 10 ^ scale`. -/
def parseMantissa (cs : List Char) : Option (Nat × Nat) :=
  match cs.splitOn '.' with
  | [ip] => (parseDigits ip).map (fun n => (n, 0))
  | [ip, fp] =>
    if ip.isEmpty && fp.isEmpty then none
    else
      match parseDigitsAux ip 0, parseDigitsAux fp 0 with
      | some i, some f => some (i * 10 ^ fp.length + f, fp.length)
      | _, _ => none
  | _ => none

/-- Exponent part after `e`/`E`: an optional sign and a nonempty digit
run. -/
def parseExponent : List Char → Option Int
  | '-' :: rest => (parseDigits rest).map (fun n => -(n : Int))
  | '+' :: rest => (parseDigits rest).map (fun n => (n : Int))
  | cs => (parseDigits cs).map (fun n => (n : Int))

/-- Unsigned floating-point literal: a mantissa, optionally followed by
`e` or `E` and a signed exponent (e.g. `12`, `0.5`, `.5`, `5.`, `1e5`,
`1.5E-2`).  The value is `mant / 10 ^ scale * 10 ^ exponent`, folded
into a single integer power of ten. -/
def parseSignless (cs : List Char) : Option JsNum :=
  match (cs.map (fun c => if c == 'E' then 'e' else c)).splitOn 'e' with
  | [m] => (parseMantissa m).map (fun p => ⟨false, p.1, -(p.2 : Int)⟩)
  | [m, e] =>
    match parseMantissa m, parseExponent e with
    | some p, some ex => some ⟨false, p.1, ex - (p.2 : Int)⟩
    | _, _ => none
  | _ => none

/-- JavaScript `Number(s)` on the strings a number form control can
hold — the HTML valid floating-point number grammar (optional sign,
digits, optional fractional part, optional `e`/`E` exponent with
optional sign) plus the empty string, with `Number("") = 0`; anything
outside that grammar is NaN (`none`). -/
def parseNumber (s : String) : Option JsNum :=
  match s.data with
  | [] => some ⟨false, 0, 0⟩
  | '-' :: rest => (parseSignless rest).map (fun x => ⟨true, x.mant, x.exp⟩)
  | '+' :: rest => parseSignless rest
  | cs => parseSignless cs

/-- Raw values of the expense form (`ExpenseFormValues`): `amount`,
`note` and `date` are strings; `category` is constrained to the enum by
the select element. -/
structure ExpenseForm where
  amount : String
  category : Category
  note : String
  date : String
  deriving Repr, DecidableEq

/-- Form fields, for attributing an error to the field it belongs to. -/
inductive Field
  | amount | category | note | date
  deriving Repr, DecidableEq

/-- Amount checks of `expenseSchema`: `min(1)` then the positivity
refinement. -/
def amountError (s : String) : Option String :=
  if s.isEmpty then some "Amount is required"
  else
    match parseNumber s with
    | none => some "Amount must be a positive number"
    | some x => if x.isPos then none else some "Amount must be a positive number"

/-- Note check of `expenseSchema`: `max(500)`. -/
def noteError (s : String) : Option String :=
  if s.length ≤ 500 then none else some "Note must be 500 characters or less"

/-- Date check of `expenseSchema`: `min(1)`. -/
def dateError (s : String) : Option String :=
  if s.isEmpty then some "Date is required" else none

/-- Per-field errors produced by `zodResolver(expenseSchema)`, each tagged
with its field (rendered inline next to that field). -/
def fieldErrors (f : ExpenseForm) : List (Field × String) :=
  ((amountError f.amount).map (fun m => (Field.amount, m))).toList ++
  ((noteError f.note).map (fun m => (Field.note, m))).toList ++
  ((dateError f.date).map (fun m => (Field.date, m))).toList

/-- Insert payload built by `onSubmit`: `user_id`, `parseFloat(amount)`,
category, `note || null`, date. -/
structure ExpenseInsert where
  user_id : String
  amount : ℚ
  category : Category
  note : Option String
  date : String
  deriving Repr, DecidableEq

/-- Outcome of one form submission: either validation errors surfaced
inline (no remote call is made), or the remote insert issued by
`onSubmit`. -/
inductive SubmitResult
  | inlineErrors (errs : List (Field × String))
  | remoteInsert (payload : ExpenseInsert)
  deriving Repr, DecidableEq

/-- Whether the submission reached the backing store. -/
def SubmitResult.issuesRemoteCall : SubmitResult → Bool
  | .inlineErrors _ => false
  | .remoteInsert _ => true

/-- The submit pipeline `handleSubmit(onSubmit)` of the Expenses page:
`zodResolver` validates first; only on success does `onSubmit` run and
issue `supabase.from("expenses").insert(...)`. -/
def submitExpense (uid : String) (f : ExpenseForm) : SubmitResult :=
  match fieldErrors f with
  | [] =>
    .remoteInsert
      { user_id := uid
        amount := ((parseNumber f.amount).map JsNum.toRat).getD 0
        category := f.category
        note := if f.note = "" then none else some f.note
        date := f.date }
  | errs => .inlineErrors errs

/-! ## Session refresh and route protection

The source files `src/middleware.ts` and `src/lib/supabase/middleware.ts`
(the `updateSession` helper and the `protectedPaths` route configuration)
are not part of the source tree given here; only the architecture
documents describe them.  The component is therefore modelled from the
specification, §4.1 to §4.4. -/

/-- Modelled from the spec: result of presenting an access credential to
the Credential Store, `validate(access_credential) -> valid|expired|invalid`
(§6; the middleware source is absent). -/
inductive ValidationResult
  | valid | expired | invalid
  deriving Repr, DecidableEq

/-- Modelled from the spec: result of presenting a refresh credential,
`rotate(refresh_credential) -> new_pair|failed` (§6), with the failure
causes of §4.2 step 5 and the failure-semantics paragraph kept distinct
so that their collapse is provable. -/
inductive RotateResult
  | ok (access refresh : String)
  | revoked
  | expiredRefresh
  | networkError
  | providerError
  deriving Repr, DecidableEq

/-- Whether a rotation succeeded. -/
def RotateResult.isOk : RotateResult → Bool
  | .ok _ _ => true
  | _ => false

/-- Modelled from the spec: a Session is the paired access and refresh
credential state for one authenticated user (§3; the middleware source
is absent). -/
structure Session where
  access : String
  refresh : String
  deriving Repr, DecidableEq

/-- Modelled from the spec: the cookie jar, as far as the Session Codec
sees it — it either holds an encoded session or holds no session cookie
(§4.1; the middleware source is absent). -/
abbrev CookieJar := Option Session

/-- Modelled from the spec: the Credential Store boundary of §6,
an opaque external service answering validation and rotation calls. -/
structure CredStore where
  validate : String → ValidationResult
  rotate : String → RotateResult

/-- Modelled from the spec: the Session Refresher operation
`refresh(cookie_jar) -> (Session | absent, mutated cookie jar)` of §4.2
(the `updateSession` source is absent).  Step 1: absent session decodes
to absent, jar unchanged.  Steps 2 and 3: a valid access credential
returns the session with the jar unchanged.  Step 4: otherwise the
refresh credential is presented; a successful rotation encodes the new
pair into the jar and returns the new session.  Step 5 and the failure
semantics of §4.2: every rotation failure collapses to absent, and per
§8 the jar is cleared. -/
def refresh (store : CredStore) (jar : CookieJar) : CookieJar × CookieJar :=
  match jar with
  | none => (none, jar)
  | some s =>
    match store.validate s.access with
    | .valid => (some s, jar)
    | _ =>
      match store.rotate s.refresh with
      | .ok a r => (some ⟨a, r⟩, some ⟨a, r⟩)
      | _ => (none, none)

/-- The protected-route allowlist documented for
`src/lib/supabase/middleware.ts` (HOW_TO §4.4: `const protectedPaths =
["/", "/demo", "/settings"]`). -/
def protectedPaths : List String := ["/", "/demo", "/settings"]

/-- Modelled from the spec: whether allowlist entry `p` covers `path` —
prefix matching on path segments, so `/demo` covers `/demo` and
`/demo/x` but `/` covers only the home path (§4.3; the
`isProtectedPath` source is absent). -/
def coversPath (p path : String) : Bool :=
  path == p || (p.data ++ ['/']).isPrefixOf path.data

/-- Route categories of the Route Classifier (§4.3). -/
inductive RouteCategory
  | Protected | Public
  deriving Repr, DecidableEq

/-- Modelled from the spec: `classify(path) -> Protected | Public`,
backed by the static allowlist `protectedPaths`; every path not covered
by an allowlist entry is implicitly Public (§4.3; the middleware source
is absent). -/
def classify (path : String) : RouteCategory :=
  if protectedPaths.any (fun p => coversPath p path) then .Protected else .Public

/-- Modelled from the spec: the public auth entry points of §4.4 step 4
(login and signup pages). -/
def authEntryPaths : List String := ["/auth/login", "/auth/signup"]

/-- Whether a path is an auth entry point. -/
def isAuthEntry (path : String) : Bool := authEntryPaths.contains path

/-- Login page the gate redirects to. -/
def loginPath : String := "/auth/login"

/-- Home page the gate redirects authenticated users to from auth pages. -/
def homePath : String := "/"

/-- An incoming request as the gate sees it: a path and a cookie jar. -/
structure Request where
  path : String
  jar : CookieJar

/-- Routing decision of the Request Gate (§4.4), carrying the outgoing
cookie jar attached to the response. -/
inductive Decision
  | Continue (jar : CookieJar)
  | RedirectTo (location : String) (jar : CookieJar)
  deriving Repr, DecidableEq

/-- Whether a decision lets the request proceed. -/
def Decision.isContinue : Decision → Bool
  | .Continue _ => true
  | .RedirectTo _ _ => false

/-- Modelled from the spec: the Request Gate operation
`handle(request) -> Decision` of §4.4 (the `src/middleware.ts` source is
absent).  Step 1 refreshes, step 2 classifies, step 3 redirects
unauthenticated requests on protected paths to the login page, step 4
redirects authenticated requests on auth entry pages to home, step 5
continues; the possibly rotated jar is attached on every branch. -/
def handle (store : CredStore) (req : Request) : Decision :=
  let res := refresh store req.jar
  if classify req.path = RouteCategory.Protected ∧ res.1 = none then
    .RedirectTo loginPath res.2
  else if isAuthEntry req.path = true ∧ res.1 ≠ none then
    .RedirectTo homePath res.2
  else
    .Continue res.2

/-! ## Theorems -/

/-- C1: for distinct authenticated users A and B, any query User B
issues over a domain table (expenses, demo_notes, profiles) returns a
result set that never contains a record whose owning identity is A, and
every write policy admits only rows owned by the requesting identity:
the row-level policies scope every read and write to the requester. -/
theorem rls_isolates_users (A B : String) (hAB : A ≠ B)
    (edb : List Expense) (ndb : List DemoNote) (pdb : List Profile) :
    (∀ e ∈ selectExpenses B edb, e.user_id ≠ A) ∧
    (∀ n ∈ selectDemoNotes B ndb, n.user_id ≠ A) ∧
    (∀ p ∈ selectProfiles B pdb, p.id ≠ A) ∧
    (∀ e : Expense, expenses_insert_own B e = true → e.user_id = B) ∧
    (∀ e : Expense, expenses_update_own B e = true → e.user_id = B) ∧
    (∀ e : Expense, expenses_delete_own B e = true → e.user_id = B) ∧
    (∀ p : Profile, profiles_insert_own B p = true → p.id = B) ∧
    (∀ p : Profile, profiles_update_own B p = true → p.id = B) := by
  refine ⟨?_, ?_, ?_, ?_, ?_, ?_, ?_, ?_⟩
  · intro e he
    have h := (List.mem_filter.mp he).2
    simp only [expenses_select_own, beq_iff_eq] at h
    exact fun hc => hAB (hc ▸ h.symm)
  · intro n hn
    have h := (List.mem_filter.mp hn).2
    simp only [demo_notes_select_own, beq_iff_eq] at h
    exact fun hc => hAB (hc ▸ h.symm)
  · intro p hp
    have h := (List.mem_filter.mp hp).2
    simp only [profiles_select_own, beq_iff_eq] at h
    exact fun hc => hAB (hc ▸ h.symm)
  · intro e he
    simp only [expenses_insert_own, beq_iff_eq] at he
    exact he.symm
  · intro e he
    simp only [expenses_update_own, beq_iff_eq] at he
    exact he.symm
  · intro e he
    simp only [expenses_delete_own, beq_iff_eq] at he
    exact he.symm
  · intro p hp
    simp only [profiles_insert_own, beq_iff_eq] at hp
    exact hp.symm
  · intro p hp
    simp only [profiles_update_own, beq_iff_eq] at hp
    exact hp.symm

/-- Witness for C1 at users alice and bob over concrete tables. -/
theorem rls_isolates_users_witness :
    (∀ e ∈ selectExpenses "bob"
        [{ id := "e1", user_id := "alice", amount := 5, category := "Food",
           note := none, date := "2026-01-01", created_at := "t", updated_at := "t" },
         { id := "e2", user_id := "bob", amount := 7, category := "Other",
           note := some "n", date := "2026-01-02", created_at := "t", updated_at := "t" }],
        e.user_id ≠ "alice") ∧
    (∀ n ∈ selectDemoNotes "bob"
        [{ id := "n1", user_id := "alice", created_at := "t", updated_at := "t",
           title := "a", content := none }],
        n.user_id ≠ "alice") ∧
    (∀ p ∈ selectProfiles "bob"
        [{ id := "alice", created_at := "t", updated_at := "t", email := "a@example.com",
           full_name := none, subscription_tier := "free",
           onboarding_completed := false, preferences := "{}" }],
        p.id ≠ "alice") ∧
    (∀ e : Expense, expenses_insert_own "bob" e = true → e.user_id = "bob") ∧
    (∀ e : Expense, expenses_update_own "bob" e = true → e.user_id = "bob") ∧
    (∀ e : Expense, expenses_delete_own "bob" e = true → e.user_id = "bob") ∧
    (∀ p : Profile, profiles_insert_own "bob" p = true → p.id = "bob") ∧
    (∀ p : Profile, profiles_update_own "bob" p = true → p.id = "bob") :=
  rls_isolates_users "alice" "bob" (by decide) _ _ _

/-- C8: signing up a new user with email e creates, via the server-side
trigger alone, exactly one profile row, whose id is the new user id,
whose email is e, whose subscription tier is free and whose onboarding
flag is false. -/
theorem signup_creates_one_profile (now : String) (u : AuthUser) (db : AuthDB)
    (hfresh : db.profiles.countP (fun p => p.id == u.id) = 0) :
    ((signUp now u db).profiles.countP (fun p => p.id == u.id) = 1) ∧
    ∃ p, (signUp now u db).profiles = p :: db.profiles ∧
      p.id = u.id ∧ p.email = u.email ∧ p.full_name = u.raw_full_name ∧
      p.subscription_tier = "free" ∧ p.onboarding_completed = false := by
  constructor
  · simp [signUp, handle_new_user, List.countP_cons, hfresh]
  · exact ⟨_, rfl, rfl, rfl, rfl, rfl, rfl⟩

/-- Witness for C8: a signup against an empty store. -/
theorem signup_creates_one_profile_witness :
    ((signUp "t0" ⟨"u1", "a@example.com", some "Ada"⟩ ⟨[], []⟩).profiles.countP
        (fun p => p.id == "u1") = 1) ∧
    ∃ p, (signUp "t0" ⟨"u1", "a@example.com", some "Ada"⟩ ⟨[], []⟩).profiles
        = p :: ([] : List Profile) ∧
      p.id = "u1" ∧ p.email = "a@example.com" ∧ p.full_name = some "Ada" ∧
      p.subscription_tier = "free" ∧ p.onboarding_completed = false :=
  signup_creates_one_profile "t0" ⟨"u1", "a@example.com", some "Ada"⟩ ⟨[], []⟩ rfl

/-- When the refresher yields no session, the mutated jar holds no
session cookie (step 1 leaves an absent jar absent; every rotation
failure clears the jar). -/
theorem refresh_absent_jar (store : CredStore) (jar : CookieJar)
    (h : (refresh store jar).1 = none) : (refresh store jar).2 = none := by
  cases jar with
  | none => rfl
  | some s =>
    simp only [refresh] at h ⊢
    cases hv : store.validate s.access with
    | valid => simp [hv] at h
    | expired =>
      cases hr : store.rotate s.refresh <;> simp [hv, hr] at h ⊢
    | invalid =>
      cases hr : store.rotate s.refresh <;> simp [hv, hr] at h ⊢

/-- C2: a request to a Protected path whose cookie jar yields no valid
session after refresh is answered with RedirectTo(login page), and the
outgoing jar attached to that redirect contains no session cookie. -/
theorem gate_protected_no_session_redirects (store : CredStore) (req : Request)
    (hprot : classify req.path = RouteCategory.Protected)
    (hsess : (refresh store req.jar).1 = none) :
    handle store req = Decision.RedirectTo loginPath none := by
  have hjar := refresh_absent_jar store req.jar hsess
  simp [handle, hprot, hsess, hjar]

/-- Witness for C2: an unauthenticated request to the protected demo
page, against a store that rejects everything. -/
theorem gate_protected_no_session_redirects_witness :
    classify "/demo" = RouteCategory.Protected ∧
    (refresh ⟨fun _ => .invalid, fun _ => .revoked⟩ (some ⟨"a", "r"⟩)).1 = none ∧
    handle ⟨fun _ => .invalid, fun _ => .revoked⟩ ⟨"/demo", some ⟨"a", "r"⟩⟩
      = Decision.RedirectTo loginPath none :=
  ⟨by decide, by decide,
    gate_protected_no_session_redirects ⟨fun _ => .invalid, fun _ => .revoked⟩
      ⟨"/demo", some ⟨"a", "r"⟩⟩ (by decide) (by decide)⟩

/-- C3 counterexample: a request to the login page carrying a valid
session is answered with RedirectTo(home), not Continue (gate step 4),
so the claim does not hold for every incoming request. -/
theorem gate_valid_session_continue_cex :
    (CredStore.mk (fun _ => .valid) (fun _ => .revoked)).validate "a"
      = ValidationResult.valid ∧
    handle ⟨fun _ => .valid, fun _ => .revoked⟩ ⟨"/auth/login", some ⟨"a", "r"⟩⟩
      = Decision.RedirectTo homePath (some ⟨"a", "r"⟩) ∧
    (handle ⟨fun _ => .valid, fun _ => .revoked⟩
      ⟨"/auth/login", some ⟨"a", "r"⟩⟩).isContinue = false := by
  refine ⟨rfl, by decide, by decide⟩

/-- C3 amended: a request carrying a session whose access credential is
valid, on any path that is not an auth entry page, is answered with
Continue, and the attached jar is identical to the incoming one (no
rotation, no mutation); on auth entry pages the gate redirects home,
still with the jar unchanged. -/
theorem gate_valid_session_continue (store : CredStore) (req : Request) (s : Session)
    (hj : req.jar = some s)
    (hv : store.validate s.access = ValidationResult.valid)
    (hne : isAuthEntry req.path = false) :
    handle store req = Decision.Continue req.jar := by
  have h1 : refresh store (some s) = (some s, some s) := by
    simp [refresh, hv]
  simp [handle, hj, h1, hne]

/-- Witness for C3 amended: a valid session visiting the protected demo
page continues with the jar untouched. -/
theorem gate_valid_session_continue_witness :
    handle ⟨fun _ => .valid, fun _ => .revoked⟩ ⟨"/demo", some ⟨"a", "r"⟩⟩
      = Decision.Continue (some ⟨"a", "r"⟩) :=
  gate_valid_session_continue ⟨fun _ => .valid, fun _ => .revoked⟩
    ⟨"/demo", some ⟨"a", "r"⟩⟩ ⟨"a", "r"⟩ rfl rfl (by decide)

/-- C4: refresh is idempotent on a jar holding a session with a valid
access credential — one call returns the session and jar unchanged, and
a second call on the resulting jar produces the identical output (no
spurious rotation). -/
theorem refresh_idempotent (store : CredStore) (s : Session)
    (hv : store.validate s.access = ValidationResult.valid) :
    refresh store (some s) = (some s, some s) ∧
    refresh store (refresh store (some s)).2 = refresh store (some s) := by
  have h1 : refresh store (some s) = (some s, some s) := by simp [refresh, hv]
  exact ⟨h1, by rw [h1]; exact h1⟩

/-- Witness for C4 at a concrete valid session. -/
theorem refresh_idempotent_witness :
    refresh ⟨fun _ => .valid, fun _ => .revoked⟩ (some ⟨"a", "r"⟩)
      = (some ⟨"a", "r"⟩, some ⟨"a", "r"⟩) ∧
    refresh ⟨fun _ => .valid, fun _ => .revoked⟩
        (refresh ⟨fun _ => .valid, fun _ => .revoked⟩ (some ⟨"a", "r"⟩)).2
      = refresh ⟨fun _ => .valid, fun _ => .revoked⟩ (some ⟨"a", "r"⟩) :=
  refresh_idempotent ⟨fun _ => .valid, fun _ => .revoked⟩ ⟨"a", "r"⟩ rfl

/-- C5 counterexample: a request to the login page whose access
credential is expired and whose refresh credential rotates successfully
is answered with RedirectTo(home), not Continue (gate step 4), so the
claim does not hold for every incoming request. -/
theorem gate_expired_session_rotates_cex :
    (CredStore.mk (fun _ => .expired) (fun _ => .ok "a2" "r2")).validate "a"
      = ValidationResult.expired ∧
    (CredStore.mk (fun _ => .expired) (fun _ => .ok "a2" "r2")).rotate "r"
      = RotateResult.ok "a2" "r2" ∧
    handle ⟨fun _ => .expired, fun _ => .ok "a2" "r2"⟩
        ⟨"/auth/login", some ⟨"a", "r"⟩⟩
      = Decision.RedirectTo homePath (some ⟨"a2", "r2"⟩) ∧
    (handle ⟨fun _ => .expired, fun _ => .ok "a2" "r2"⟩
      ⟨"/auth/login", some ⟨"a", "r"⟩⟩).isContinue = false := by
  refine ⟨rfl, rfl, by decide, by decide⟩

/-- C5 amended: a request carrying a session whose access credential is
expired and whose refresh credential rotates successfully, on any path
that is not an auth entry page, is answered with Continue, and the
outgoing jar holds the newly rotated access+refresh pair in place of the
old one; on auth entry pages the gate redirects home, still with the
rotated jar attached. -/
theorem gate_expired_session_rotates (store : CredStore) (req : Request)
    (s : Session) (a r : String)
    (hj : req.jar = some s)
    (hexp : store.validate s.access = ValidationResult.expired)
    (hrot : store.rotate s.refresh = RotateResult.ok a r)
    (hne : isAuthEntry req.path = false) :
    refresh store req.jar = (some ⟨a, r⟩, some ⟨a, r⟩) ∧
    handle store req = Decision.Continue (some ⟨a, r⟩) := by
  have h1 : refresh store req.jar = (some ⟨a, r⟩, some ⟨a, r⟩) := by
    rw [hj]; simp [refresh, hexp, hrot]
  exact ⟨h1, by simp [handle, h1, hne]⟩

/-- Witness for C5 amended: an expired session on the demo page gets the
rotated pair and continues. -/
theorem gate_expired_session_rotates_witness :
    refresh ⟨fun _ => .expired, fun _ => .ok "a2" "r2"⟩ (some ⟨"a", "r"⟩)
      = (some ⟨"a2", "r2"⟩, some ⟨"a2", "r2"⟩) ∧
    handle ⟨fun _ => .expired, fun _ => .ok "a2" "r2"⟩ ⟨"/demo", some ⟨"a", "r"⟩⟩
      = Decision.Continue (some ⟨"a2", "r2"⟩) :=
  gate_expired_session_rotates ⟨fun _ => .expired, fun _ => .ok "a2" "r2"⟩
    ⟨"/demo", some ⟨"a", "r"⟩⟩ ⟨"a", "r"⟩ "a2" "r2" rfl rfl rfl (by decide)

/-- C6: whenever the access credential does not validate and the
rotation call does not succeed — whether the refresh credential is
revoked or expired, or the provider or network failed — the refresher
returns absent with a cleared jar, and any two stores failing for any
two of those reasons produce the very same outcome: no failure is
surfaced to the caller as a distinct error. -/
theorem refresh_fails_closed (store1 store2 : CredStore) (s : Session)
    (h1 : store1.validate s.access ≠ ValidationResult.valid)
    (h2 : (store1.rotate s.refresh).isOk = false)
    (h3 : store2.validate s.access ≠ ValidationResult.valid)
    (h4 : (store2.rotate s.refresh).isOk = false) :
    refresh store1 (some s) = (none, none) ∧
    refresh store1 (some s) = refresh store2 (some s) := by
  have key : ∀ store : CredStore, store.validate s.access ≠ ValidationResult.valid →
      (store.rotate s.refresh).isOk = false → refresh store (some s) = (none, none) := by
    intro store hval hrot
    simp only [refresh]
    cases hv : store.validate s.access with
    | valid => exact absurd hv hval
    | expired =>
      cases hr : store.rotate s.refresh <;>
        simp [RotateResult.isOk, hr] at hrot ⊢
    | invalid =>
      cases hr : store.rotate s.refresh <;>
        simp [RotateResult.isOk, hr] at hrot ⊢
  have k1 := key store1 h1 h2
  have k2 := key store2 h3 h4
  exact ⟨k1, k1.trans k2.symm⟩

/-- Witness for C6: a network error and a revoked refresh credential
collapse to the same absent result with a cleared jar. -/
theorem refresh_fails_closed_witness :
    refresh ⟨fun _ => .expired, fun _ => .networkError⟩ (some ⟨"a", "r"⟩)
      = (none, none) ∧
    refresh ⟨fun _ => .expired, fun _ => .networkError⟩ (some ⟨"a", "r"⟩)
      = refresh ⟨fun _ => .invalid, fun _ => .revoked⟩ (some ⟨"a", "r"⟩) :=
  refresh_fails_closed ⟨fun _ => .expired, fun _ => .networkError⟩
    ⟨fun _ => .invalid, fun _ => .revoked⟩ ⟨"a", "r"⟩
    (by decide) (by decide) (by decide) (by decide)

/-- C7: the classifier is backed by the static allowlist
`protectedPaths`: a path is Protected exactly when some allowlist entry
covers it, and every path not covered by any entry is Public. -/
theorem classify_defaults_to_public (path : String) :
    (classify path = RouteCategory.Public ↔
      ∀ p ∈ protectedPaths, coversPath p path = false) ∧
    (classify path = RouteCategory.Protected ↔
      ∃ p ∈ protectedPaths, coversPath p path = true) := by
  by_cases h : protectedPaths.any (fun p => coversPath p path) = true
  · have hex := List.any_eq_true.mp h
    constructor
    · simp only [classify, if_pos h]
      constructor
      · intro hc; cases hc
      · intro hall
        obtain ⟨p, hp, hcp⟩ := hex
        rw [hall p hp] at hcp
        cases hcp
    · simp only [classify, if_pos h, true_iff]
      obtain ⟨p, hp, hcp⟩ := hex
      exact ⟨p, hp, hcp⟩
  · have hall : ∀ p ∈ protectedPaths, coversPath p path = false := by
      intro p hp
      by_contra hc
      have hcp : coversPath p path = true := by
        cases hcv : coversPath p path
        · exact absurd hcv hc
        · rfl
      exact h (List.any_eq_true.mpr ⟨p, hp, hcp⟩)
    constructor
    · simp only [classify, if_neg h, true_iff]
      exact fun p hp => hall p hp
    · simp only [classify, if_neg h]
      constructor
      · intro hc; cases hc
      · rintro ⟨p, hp, hcp⟩
        rw [hall p hp] at hcp
        cases hcp

/-- Totality of the character-code lexicographic order. -/
theorem lexLe_total (as bs : List Nat) : (lexLe as bs || lexLe bs as) = true := by
  induction as generalizing bs with
  | nil => simp [lexLe]
  | cons a as ih =>
    cases bs with
    | nil => simp [lexLe]
    | cons b bs =>
      simp only [lexLe, Bool.or_eq_true, Bool.and_eq_true, decide_eq_true_eq,
        beq_iff_eq]
      rcases Nat.lt_trichotomy a b with h | h | h
      · exact Or.inl (Or.inl h)
      · subst h
        have hor := ih bs
        simp only [Bool.or_eq_true] at hor
        rcases hor with h1 | h1
        · exact Or.inl (Or.inr ⟨rfl, h1⟩)
        · exact Or.inr (Or.inr ⟨rfl, h1⟩)
      · exact Or.inr (Or.inl h)

/-- Transitivity of the character-code lexicographic order. -/
theorem lexLe_trans (as : List Nat) : ∀ bs cs : List Nat,
    lexLe as bs = true → lexLe bs cs = true → lexLe as cs = true := by
  induction as with
  | nil => intro bs cs _ _; rfl
  | cons a as ih =>
    intro bs cs h1 h2
    cases bs with
    | nil => simp [lexLe] at h1
    | cons b bs =>
      cases cs with
      | nil => simp [lexLe] at h2
      | cons c cs =>
        simp only [lexLe, Bool.or_eq_true, Bool.and_eq_true, decide_eq_true_eq,
          beq_iff_eq] at h1 h2 ⊢
        rcases h1 with h1 | ⟨hab, h1⟩
        · rcases h2 with h2 | ⟨hbc, h2⟩
          · exact Or.inl (Nat.lt_trans h1 h2)
          · subst hbc; exact Or.inl h1
        · subst hab
          rcases h2 with h2 | ⟨hbc, h2⟩
          · exact Or.inl h2
          · subst hbc; exact Or.inr ⟨rfl, ih bs cs h1 h2⟩

/-- Totality of `strLe`. -/
theorem strLe_total (a b : String) : (strLe a b || strLe b a) = true :=
  lexLe_total _ _

/-- Transitivity of `strLe`. -/
theorem strLe_trans (a b c : String) (h1 : strLe a b = true)
    (h2 : strLe b c = true) : strLe a c = true :=
  lexLe_trans _ _ _ h1 h2

/-- C10: the list fetched and rendered by the Expenses page is exactly
the current user's stored expenses (a permutation of the user-filtered
table, hence the same membership), sorted on the date field in
non-increasing order; and the query `fetchExpenses` builds orders on the
date column with ascending set to false. -/
theorem fetchExpenses_spec (uid : String) (db : List Expense) :
    (fetchExpensesQuery uid).orderColumn = "date" ∧
    (fetchExpensesQuery uid).ascending = false ∧
    (fetchExpenses uid db).Perm (db.filter (fun e => e.user_id == uid)) ∧
    (∀ e, e ∈ fetchExpenses uid db ↔ e ∈ db ∧ e.user_id = uid) ∧
    (fetchExpenses uid db).Pairwise (fun a b => strLe b.date a.date = true) := by
  refine ⟨rfl, rfl, ?_, ?_, ?_⟩
  · exact List.mergeSort_perm _ _
  · intro e
    constructor
    · intro he
      have := List.mem_filter.mp (List.mem_mergeSort.mp he)
      exact ⟨this.1, by simpa using this.2⟩
    · intro ⟨hmem, huid⟩
      exact List.mem_mergeSort.mpr (List.mem_filter.mpr ⟨hmem, by simpa using huid⟩)
  · show ((db.filter (fun e => e.col "user_id" == uid)).mergeSort
        (fun a b => strLe b.date a.date)).Pairwise
        (fun a b => strLe b.date a.date = true)
    exact @List.sorted_mergeSort Expense (fun a b => strLe b.date a.date)
      (fun a b c hab hbc => strLe_trans _ _ _ hbc hab)
      (fun a b => strLe_total _ _) _

/-- The boolean positivity check on a parsed number agrees with strict
positivity of its rational value. -/
theorem JsNum.isPos_iff (x : JsNum) : x.isPos = true ↔ 0 < x.toRat := by
  unfold JsNum.isPos JsNum.toRat
  have h10 : (0 : ℚ) < (10 : ℚ) ^ x.exp := by positivity
  cases hn : x.neg with
  | false =>
    simp only [Bool.not_false, Bool.true_and, bne_iff_ne, ne_eq, if_false,
      Bool.false_eq_true, one_mul]
    constructor
    · intro h
      have hm : x.mant ≠ 0 := by simpa using h
      have hq : (0 : ℚ) < (x.mant : ℚ) := by exact_mod_cast Nat.pos_of_ne_zero hm
      exact mul_pos hq h10
    · intro h
      have hq : (0 : ℚ) < (x.mant : ℚ) := by
        rcases Nat.eq_zero_or_pos x.mant with h0 | h0
        · rw [h0] at h
          simp at h
        · exact_mod_cast h0
      have : x.mant ≠ 0 := by exact_mod_cast ne_of_gt hq
      simpa using this
  | true =>
    simp only [Bool.not_true, Bool.false_and, Bool.false_eq_true, false_iff,
      not_lt, if_true]
    have hm : (0 : ℚ) ≤ (x.mant : ℚ) := Nat.cast_nonneg _
    have hnn : (0 : ℚ) ≤ (x.mant : ℚ) * (10 : ℚ) ^ x.exp :=
      mul_nonneg hm (le_of_lt h10)
    rw [neg_one_mul, neg_mul]
    exact neg_nonpos.mpr hnn

/-- A malformed amount (empty, not a number, or not strictly positive)
fails the amount checks of the schema. -/
theorem amountError_isSome_of_malformed (s : String)
    (h : s = "" ∨ parseNumber s = none ∨
      ∃ x, parseNumber s = some x ∧ x.toRat ≤ 0) :
    (amountError s).isSome = true := by
  unfold amountError
  rcases h with h | h | ⟨x, hx, hle⟩
  · subst h; rfl
  · by_cases he : s.isEmpty
    · simp [he]
    · simp [he, h]
  · by_cases he : s.isEmpty
    · simp [he]
    · have hpos : x.isPos = false := by
        cases hp : x.isPos
        · rfl
        · exact absurd ((JsNum.isPos_iff x).mp hp) (not_lt.mpr hle)
      simp [he, hx, hpos]

/-- A failing amount check lands in the field-error list under the
amount field. -/
theorem amount_field_error (f : ExpenseForm)
    (h : (amountError f.amount).isSome = true) :
    Field.amount ∈ (fieldErrors f).map Prod.fst := by
  obtain ⟨m, hm⟩ := Option.isSome_iff_exists.mp h
  simp [fieldErrors, hm]

/-- A too-long note lands in the field-error list under the note field. -/
theorem note_field_error (f : ExpenseForm) (h : 500 < f.note.length) :
    Field.note ∈ (fieldErrors f).map Prod.fst := by
  have hm : noteError f.note = some "Note must be 500 characters or less" := by
    unfold noteError
    rw [if_neg (not_le.mpr h)]
  simp [fieldErrors, hm]

/-- An empty date lands in the field-error list under the date field. -/
theorem date_field_error (f : ExpenseForm) (h : f.date = "") :
    Field.date ∈ (fieldErrors f).map Prod.fst := by
  have hm : dateError f.date = some "Date is required" := by
    rw [h]; rfl
  simp [fieldErrors, hm]

/-- The field-error list is nonempty as soon as one check fails. -/
theorem fieldErrors_ne_nil (f : ExpenseForm)
    (h : (amountError f.amount).isSome = true ∨
      (noteError f.note).isSome = true ∨ (dateError f.date).isSome = true) :
    fieldErrors f ≠ [] := by
  rcases h with h | h | h <;>
    obtain ⟨m, hm⟩ := Option.isSome_iff_exists.mp h <;>
    simp [fieldErrors, hm]

/-- C9: a malformed expense-form submission — amount empty, non-numeric
or not strictly positive, note longer than 500 characters, or date
empty — is stopped by validation: the pipeline returns the inline
field-error list, issues no remote insert, and the error list names the
offending field. -/
theorem invalid_form_no_remote_call (uid : String) (f : ExpenseForm)
    (h : (f.amount = "" ∨ parseNumber f.amount = none ∨
            ∃ x, parseNumber f.amount = some x ∧ x.toRat ≤ 0) ∨
         500 < f.note.length ∨ f.date = "") :
    submitExpense uid f = SubmitResult.inlineErrors (fieldErrors f) ∧
    (submitExpense uid f).issuesRemoteCall = false ∧
    ((f.amount = "" ∨ parseNumber f.amount = none ∨
        ∃ x, parseNumber f.amount = some x ∧ x.toRat ≤ 0) →
      Field.amount ∈ (fieldErrors f).map Prod.fst) ∧
    (500 < f.note.length → Field.note ∈ (fieldErrors f).map Prod.fst) ∧
    (f.date = "" → Field.date ∈ (fieldErrors f).map Prod.fst) := by
  have hne : fieldErrors f ≠ [] := by
    rcases h with h | h | h
    · exact fieldErrors_ne_nil f (Or.inl (amountError_isSome_of_malformed _ h))
    · refine fieldErrors_ne_nil f (Or.inr (Or.inl ?_))
      unfold noteError
      rw [if_neg (not_le.mpr h)]
      rfl
    · refine fieldErrors_ne_nil f (Or.inr (Or.inr ?_))
      unfold dateError
      rw [h]
      rfl
  have hsub : submitExpense uid f = SubmitResult.inlineErrors (fieldErrors f) := by
    unfold submitExpense
    cases hE : fieldErrors f with
    | nil => exact absurd hE hne
    | cons a l => rfl
  refine ⟨hsub, by rw [hsub]; rfl, ?_, ?_, ?_⟩
  · intro ha
    exact amount_field_error f (amountError_isSome_of_malformed _ ha)
  · exact note_field_error f
  · exact date_field_error f

/-- Witness for C9: the all-empty form (empty amount, empty date) is
rejected inline with no remote call. -/
theorem invalid_form_no_remote_call_witness :
    submitExpense "u1" ⟨"", Category.Food, "", ""⟩
      = SubmitResult.inlineErrors (fieldErrors ⟨"", Category.Food, "", ""⟩) ∧
    (submitExpense "u1" ⟨"", Category.Food, "", ""⟩).issuesRemoteCall = false ∧
    ((("" : String) = "" ∨ parseNumber "" = none ∨
        ∃ x, parseNumber "" = some x ∧ x.toRat ≤ 0) →
      Field.amount ∈ (fieldErrors ⟨"", Category.Food, "", ""⟩).map Prod.fst) ∧
    (500 < ("" : String).length →
      Field.note ∈ (fieldErrors ⟨"", Category.Food, "", ""⟩).map Prod.fst) ∧
    (("" : String) = "" →
      Field.date ∈ (fieldErrors ⟨"", Category.Food, "", ""⟩).map Prod.fst) :=
  invalid_form_no_remote_call "u1" ⟨"", Category.Food, "", ""⟩ (Or.inl (Or.inl rfl))

end ExpenseTracker
